import Mathlib

/-!
Verification development for the smart-attendance-hub front end.

Shallow embedding of the state-manipulating logic of
FaceTraining.tsx, BulkUpload.tsx, TakeAttendance.tsx and useFaceApi.ts,
together with the relational schema (students, attendance) and, where the
repository only documents the recognition backend (its HTTP contract in
docs/BACKEND_API_SPECIFICATION.md), models written from that contract.
-/

namespace SmartAttendance

/-- One captured enrollment image, mirroring the CapturedImage interface of
FaceTraining.tsx (id plus a JPEG data URL). -/
structure CapturedImage where
  id : Nat
  dataUrl : String
deriving DecidableEq

/-- Embedding of captureImage in FaceTraining.tsx together with the gate on
its only caller: the Capture button is disabled when
capturedImages.length >= 10, so the handler appends the new frame only while
fewer than 10 images are held. -/
def captureImage (capturedImages : List CapturedImage) (img : CapturedImage) :
    List CapturedImage :=
  if capturedImages.length ≥ 10 then capturedImages else capturedImages ++ [img]

/-- Embedding of removeImage in FaceTraining.tsx: drop the image with the
given id. -/
def removeImage (capturedImages : List CapturedImage) (i : Nat) :
    List CapturedImage :=
  capturedImages.filter (fun img => img.id ≠ i)

/-- Embedding of clearAllImages in FaceTraining.tsx. -/
def clearAllImages (_capturedImages : List CapturedImage) : List CapturedImage :=
  []

/-- The states the capturedImages list can be in, following every operation
FaceTraining.tsx performs on it: it starts empty, images are captured through
the gated Capture button, single images are removed, and the list is cleared
(Clear All, or the reset after a successful training). -/
inductive CapturedReachable : List CapturedImage → Prop
  | start : CapturedReachable []
  | capture {l : List CapturedImage} (img : CapturedImage) :
      CapturedReachable l → CapturedReachable (captureImage l img)
  | remove {l : List CapturedImage} (i : Nat) :
      CapturedReachable l → CapturedReachable (removeImage l i)
  | clear {l : List CapturedImage} :
      CapturedReachable l → CapturedReachable (clearAllImages l)

/-- Outcome of the enrollment entry point handleTrainStudent in
FaceTraining.tsx, up to the decision whether the training path is entered:
missing form fields and an insufficient image count are rejected before any
training call; otherwise the handler proceeds to the training request. -/
inductive TrainEntry where
  | missingInfo
  | insufficientImages
  | trainingEntered (images : List CapturedImage)
deriving DecidableEq

/-- Embedding of the validation prefix of handleTrainStudent in
FaceTraining.tsx: empty fullName, rollNumber or section id toast and return;
fewer than 5 captured images toast and return; otherwise the training path is
entered with the captured images. -/
def handleTrainStudentEntry (fullName rollNumber selectedSectionId : String)
    (capturedImages : List CapturedImage) : TrainEntry :=
  if fullName = "" ∨ rollNumber = "" ∨ selectedSectionId = "" then
    .missingInfo
  else if capturedImages.length < 5 then
    .insufficientImages
  else
    .trainingEntered capturedImages

theorem capturedReachable_length_le_ten {l : List CapturedImage}
    (h : CapturedReachable l) : l.length ≤ 10 := by
  induction h with
  | start => simp
  | capture img _ ih =>
      unfold captureImage
      split
      · exact ih
      · simp only [List.length_append, List.length_cons, List.length_nil]
        omega
  | remove i _ ih =>
      exact le_trans (List.length_filter_le _ _) ih
  | clear _ _ => simp [clearAllImages]

/-- C1: the image-count bounds 5 ≤ N ≤ 10 at the enrollment entry point.
With the required fields filled, a submission with 4 captured images is
rejected before any training call; a submission with 5 through 10 images
enters the training path; and every state the capturedImages list can reach
holds at most 10 images, so no submission carries 11 or more. -/
theorem enrollment_image_count_bounds
    (fullName rollNumber sectionId : String) (imgs : List CapturedImage)
    (hName : fullName ≠ "") (hRoll : rollNumber ≠ "") (hSec : sectionId ≠ "") :
    (imgs.length = 4 →
      handleTrainStudentEntry fullName rollNumber sectionId imgs =
        .insufficientImages) ∧
    (5 ≤ imgs.length →
      handleTrainStudentEntry fullName rollNumber sectionId imgs =
        .trainingEntered imgs) ∧
    (CapturedReachable imgs → imgs.length ≤ 10) := by
  refine ⟨?_, ?_, capturedReachable_length_le_ten⟩
  · intro h4
    unfold handleTrainStudentEntry
    rw [if_neg (by tauto), if_pos (by omega)]
  · intro h5
    unfold handleTrainStudentEntry
    rw [if_neg (by tauto), if_neg (by omega)]

/-- Witness for the C1 theorem at a concrete input: five images lead into the
training path. -/
theorem enrollment_image_count_bounds_witness :
    handleTrainStudentEntry "A" "R1" "sec1"
      ((List.range 5).map (fun i => ⟨i, "img"⟩)) =
      .trainingEntered ((List.range 5).map (fun i => ⟨i, "img"⟩)) :=
  (enrollment_image_count_bounds "A" "R1" "sec1" _
    (by decide) (by decide) (by decide)).2.1 (by decide)

/-! Students table model (schema: public.students; mutated by
handleTrainStudent in FaceTraining.tsx). -/

/-- One row of the public.students table (columns used by the pages under
verification). -/
structure StudentRow where
  id : String
  roll_number : String
  full_name : String
  email : Option String
  section_id : String
  face_registered : Bool
  face_embedding_id : Option String
deriving DecidableEq

/-- Response of POST /api/face-training as consumed by handleTrainStudent
(fields success, face_embedding_id, message, error). -/
structure FaceTrainingResponse where
  success : Bool
  face_embedding_id : Option String
  message : Option String
  error : Option String
deriving DecidableEq

/-- The formData state of FaceTraining.tsx (email empty string is sent as
null, modelled as Option). -/
structure EnrollForm where
  fullName : String
  rollNumber : String
  email : Option String
deriving DecidableEq

/-- Embedding of the update branch of handleTrainStudent: when a student with
the submitted roll number already exists, only full_name and email are
updated on that row. -/
def updateNameEmail (form : EnrollForm) (sid : String) (db : List StudentRow) :
    List StudentRow :=
  db.map (fun r =>
    if r.id = sid then { r with full_name := form.fullName, email := form.email }
    else r)

/-- Embedding of the insert branch of handleTrainStudent: a fresh row with
face_registered false and no embedding reference. -/
def newStudentRow (form : EnrollForm) (sectionId newId : String) : StudentRow :=
  { id := newId
  , roll_number := form.rollNumber
  , full_name := form.fullName
  , email := form.email
  , section_id := sectionId
  , face_registered := false
  , face_embedding_id := none }

/-- Embedding of the success branch of handleTrainStudent: set
face_registered and face_embedding_id on the enrolled student's row. -/
def markFaceRegistered (sid : String) (embeddingId : Option String)
    (db : List StudentRow) : List StudentRow :=
  db.map (fun r =>
    if r.id = sid then
      { r with face_registered := true, face_embedding_id := embeddingId }
    else r)

/-- Embedding of the database effect of handleTrainStudent in
FaceTraining.tsx after validation passes: look up the roll number
(maybeSingle); update name/email of the existing row or insert a fresh row;
call the training API; only when the result is success true, mark the student
face_registered with the returned embedding id. A training failure (success
false) or a thrown/failed call (modelled as none, since the hook returns null
after catching) leaves the table as it was after the upsert step. -/
def handleTrainStudentDb (form : EnrollForm) (sectionId newId : String)
    (trainResult : Option FaceTrainingResponse) (db : List StudentRow) :
    List StudentRow :=
  let existing := db.find? (fun r => decide (r.roll_number = form.rollNumber))
  let studentId := match existing with
    | some st => st.id
    | none => newId
  let db1 := match existing with
    | some st => updateNameEmail form st.id db
    | none => db ++ [newStudentRow form sectionId newId]
  match trainResult with
  | some res =>
      if res.success then markFaceRegistered studentId res.face_embedding_id db1
      else db1
  | none => db1

/-- The roll_number column of the table. -/
def rollNumbers (db : List StudentRow) : List String :=
  db.map (fun r => r.roll_number)

theorem rollNumbers_updateNameEmail (form : EnrollForm) (sid : String)
    (db : List StudentRow) :
    rollNumbers (updateNameEmail form sid db) = rollNumbers db := by
  unfold rollNumbers updateNameEmail
  rw [List.map_map]
  apply List.map_congr_left
  intro r _
  by_cases h : r.id = sid <;> simp [h]

theorem rollNumbers_markFaceRegistered (sid : String)
    (embeddingId : Option String) (db : List StudentRow) :
    rollNumbers (markFaceRegistered sid embeddingId db) = rollNumbers db := by
  unfold rollNumbers markFaceRegistered
  rw [List.map_map]
  apply List.map_congr_left
  intro r _
  by_cases h : r.id = sid <;> simp [h]

theorem rollNumbers_handleTrainStudentDb (form : EnrollForm)
    (sectionId newId : String) (trainResult : Option FaceTrainingResponse)
    (db : List StudentRow) :
    rollNumbers (handleTrainStudentDb form sectionId newId trainResult db) =
      if (db.find? (fun r => decide (r.roll_number = form.rollNumber))).isSome
      then rollNumbers db
      else rollNumbers db ++ [form.rollNumber] := by
  unfold handleTrainStudentDb
  cases hfind : db.find? (fun r => decide (r.roll_number = form.rollNumber)) with
  | none =>
      cases trainResult with
      | none => simp [rollNumbers, newStudentRow]
      | some res =>
          by_cases hs : res.success
          · simp only [hs, if_true, Option.isSome_none, Bool.false_eq_true,
              if_false]
            rw [rollNumbers_markFaceRegistered]
            simp [rollNumbers, newStudentRow]
          · simp [hs, rollNumbers, newStudentRow]
  | some st =>
      cases trainResult with
      | none => simp [rollNumbers_updateNameEmail]
      | some res =>
          by_cases hs : res.success
          · simp only [hs, if_true, Option.isSome_some]
            rw [rollNumbers_markFaceRegistered, rollNumbers_updateNameEmail]
          · simp [hs, rollNumbers_updateNameEmail]

theorem find?_roll_isSome_iff (form : EnrollForm) (db : List StudentRow) :
    (db.find? (fun r => decide (r.roll_number = form.rollNumber))).isSome ↔
      form.rollNumber ∈ rollNumbers db := by
  rw [List.find?_isSome]
  unfold rollNumbers
  simp only [List.mem_map, decide_eq_true_eq]

theorem handleTrainStudentDb_nodup (form : EnrollForm)
    (sectionId newId : String) (trainResult : Option FaceTrainingResponse)
    (db : List StudentRow) (hNodup : (rollNumbers db).Nodup) :
    (rollNumbers (handleTrainStudentDb form sectionId newId trainResult db)).Nodup := by
  rw [rollNumbers_handleTrainStudentDb]
  split
  · exact hNodup
  · next hfind =>
      rw [List.nodup_append]
      refine ⟨hNodup, List.nodup_singleton _, ?_⟩
      intro a ha hb
      rw [List.mem_singleton] at hb
      subst hb
      exact hfind (by rw [find?_roll_isSome_iff]; exact ha)

theorem handleTrainStudentDb_count_one (form : EnrollForm)
    (sectionId newId : String) (trainResult : Option FaceTrainingResponse)
    (db : List StudentRow) (hNodup : (rollNumbers db).Nodup) :
    (rollNumbers (handleTrainStudentDb form sectionId newId trainResult db)).count
      form.rollNumber = 1 := by
  rw [rollNumbers_handleTrainStudentDb]
  split
  · next hfind =>
      rw [find?_roll_isSome_iff] at hfind
      exact List.count_eq_one_of_mem hNodup hfind
  · next hfind =>
      rw [List.count_append]
      have hnm : form.rollNumber ∉ rollNumbers db := by
        intro hmem
        exact hfind (by rw [find?_roll_isSome_iff]; exact hmem)
      rw [List.count_eq_zero_of_not_mem hnm]
      simp

theorem length_handleTrainStudentDb (form : EnrollForm)
    (sectionId newId : String) (trainResult : Option FaceTrainingResponse)
    (db : List StudentRow) :
    (handleTrainStudentDb form sectionId newId trainResult db).length =
      if (db.find? (fun r => decide (r.roll_number = form.rollNumber))).isSome
      then db.length
      else db.length + 1 := by
  have h := congrArg List.length
    (rollNumbers_handleTrainStudentDb form sectionId newId trainResult db)
  unfold rollNumbers at h
  rw [List.length_map] at h
  rw [h]
  split <;> simp

/-- C5: enrolling a roll number keeps the roll_number column unique
(mirroring the UNIQUE constraint), leaves exactly one row carrying the
submitted roll number, and enrolling the same roll number a second time
updates that row in place — the table keeps exactly one row for the roll and
does not grow. -/
theorem roll_number_unique_after_enrollment
    (form form' : EnrollForm) (sectionId newId sectionId' newId' : String)
    (tr tr' : Option FaceTrainingResponse) (db : List StudentRow)
    (hNodup : (rollNumbers db).Nodup) (hSame : form'.rollNumber = form.rollNumber) :
    (rollNumbers (handleTrainStudentDb form sectionId newId tr db)).Nodup ∧
    (rollNumbers (handleTrainStudentDb form sectionId newId tr db)).count
      form.rollNumber = 1 ∧
    (rollNumbers (handleTrainStudentDb form' sectionId' newId' tr'
        (handleTrainStudentDb form sectionId newId tr db))).count
      form.rollNumber = 1 ∧
    (handleTrainStudentDb form' sectionId' newId' tr'
        (handleTrainStudentDb form sectionId newId tr db)).length =
      (handleTrainStudentDb form sectionId newId tr db).length := by
  have h1 := handleTrainStudentDb_nodup form sectionId newId tr db hNodup
  have h2 := handleTrainStudentDb_count_one form sectionId newId tr db hNodup
  have hmem : form'.rollNumber ∈
      rollNumbers (handleTrainStudentDb form sectionId newId tr db) := by
    rw [hSame]
    exact List.count_pos_iff.mp (by rw [h2]; omega)
  refine ⟨h1, h2, ?_, ?_⟩
  · have := handleTrainStudentDb_count_one form' sectionId' newId' tr'
      (handleTrainStudentDb form sectionId newId tr db) h1
    rwa [hSame] at this
  · rw [length_handleTrainStudentDb]
    rw [if_pos ((find?_roll_isSome_iff form' _).mpr hmem)]

/-- Witness for the C5 theorem: enrolling roll R1 twice into a singleton-free
table leaves exactly one R1 row. -/
theorem roll_number_unique_after_enrollment_witness :
    (rollNumbers (handleTrainStudentDb ⟨"B", "R1", none⟩ "sec" "id2" none
        (handleTrainStudentDb ⟨"A", "R1", none⟩ "sec" "id1" none []))).count
      "R1" = 1 :=
  (roll_number_unique_after_enrollment ⟨"A", "R1", none⟩ ⟨"B", "R1", none⟩
    "sec" "id1" "sec" "id2" none none [] (by simp [rollNumbers]) rfl).2.2.1

theorem handleTrainStudentDb_failure (form : EnrollForm)
    (sectionId newId : String) (trainResult : Option FaceTrainingResponse)
    (db : List StudentRow)
    (hfail : ∀ res : FaceTrainingResponse, trainResult = some res →
      res.success = false) :
    handleTrainStudentDb form sectionId newId trainResult db =
      match db.find? (fun r => decide (r.roll_number = form.rollNumber)) with
      | some st => updateNameEmail form st.id db
      | none => db ++ [newStudentRow form sectionId newId] := by
  unfold handleTrainStudentDb
  cases trainResult with
  | none => rfl
  | some res => simp [hfail res rfl]

/-- Concrete students table for the C4 counterexample: one student already
face_registered from a prior enrollment. -/
def demoRegisteredDb : List StudentRow :=
  [{ id := "s1", roll_number := "R1", full_name := "Old Name", email := none
   , section_id := "sec", face_registered := true
   , face_embedding_id := some "e0" }]

/-- C4 counterexample: re-enrolling roll R1 while the training call fails
(the hook returned null) leaves the existing row with face_registered still
true — the row does not remain with face_registered false as the claim
states. -/
theorem face_registered_failure_counterexample :
    (handleTrainStudentDb { fullName := "New Name", rollNumber := "R1", email := none }
        "sec" "n1" none demoRegisteredDb).map (fun r => r.face_registered) =
      [true] := by
  decide

/-- C4 amended: face_registered (with the returned embedding id) is set by
the enrollment exactly when the training call returns success; when the call
fails or throws, face_registered is not touched — a newly inserted row
carries face_registered false, and a pre-existing row keeps the value it had
before the enrollment. -/
theorem face_registered_iff_training_success
    (form : EnrollForm) (sectionId newId : String)
    (trainResult : Option FaceTrainingResponse) (db : List StudentRow) :
    (∀ res : FaceTrainingResponse, trainResult = some res → res.success = true →
      ∃ r ∈ handleTrainStudentDb form sectionId newId trainResult db,
        r.roll_number = form.rollNumber ∧ r.face_registered = true ∧
        r.face_embedding_id = res.face_embedding_id) ∧
    ((∀ res : FaceTrainingResponse, trainResult = some res →
        res.success = false) →
      ∀ r ∈ handleTrainStudentDb form sectionId newId trainResult db,
        (∃ r₀ ∈ db, r₀.id = r.id ∧ r₀.face_registered = r.face_registered) ∨
        (r.id = newId ∧ r.face_registered = false)) := by
  constructor
  · intro res hres hsucc
    subst hres
    unfold handleTrainStudentDb
    cases hfind : db.find? (fun r => decide (r.roll_number = form.rollNumber)) with
    | some st =>
        have hst : st ∈ db := List.mem_of_find?_eq_some hfind
        have hroll : st.roll_number = form.rollNumber := by
          have h := List.find?_some hfind
          simpa using h
        simp only [hsucc, if_true]
        refine ⟨{ st with
                    full_name := form.fullName
                    email := form.email
                    face_registered := true
                    face_embedding_id := res.face_embedding_id },
          ?_, hroll, rfl, rfl⟩
        unfold markFaceRegistered updateNameEmail
        rw [List.map_map]
        refine List.mem_map.mpr ⟨st, hst, ?_⟩
        simp
    | none =>
        simp only [hsucc, if_true]
        refine ⟨{ newStudentRow form sectionId newId with
                    face_registered := true
                    face_embedding_id := res.face_embedding_id },
          ?_, rfl, rfl, rfl⟩
        unfold markFaceRegistered
        refine List.mem_map.mpr ⟨newStudentRow form sectionId newId, ?_, ?_⟩
        · simp
        · simp [newStudentRow]
  · intro hfail r hr
    rw [handleTrainStudentDb_failure form sectionId newId trainResult db hfail] at hr
    cases hfind : db.find? (fun r => decide (r.roll_number = form.rollNumber)) with
    | some st =>
        rw [hfind] at hr
        unfold updateNameEmail at hr
        obtain ⟨r₀, hr₀, himg⟩ := List.mem_map.mp hr
        left
        by_cases hid : r₀.id = st.id
        · rw [if_pos hid] at himg
          subst himg
          exact ⟨r₀, hr₀, rfl, rfl⟩
        · rw [if_neg hid] at himg
          subst himg
          exact ⟨r₀, hr₀, rfl, rfl⟩
    | none =>
        rw [hfind] at hr
        rcases List.mem_append.mp hr with hmem | hnew
        · exact Or.inl ⟨r, hmem, rfl, rfl⟩
        · rw [List.mem_singleton] at hnew
          subst hnew
          exact Or.inr ⟨rfl, rfl⟩

/-- Witness for the C4 amended theorem: a successful training call on an
empty table produces a row for the roll with face_registered true and the
returned embedding id. -/
theorem face_registered_iff_training_success_witness :
    ∃ r ∈ handleTrainStudentDb { fullName := "A", rollNumber := "R1", email := none }
        "sec" "n1"
        (some { success := true, face_embedding_id := some "emb"
              , message := none, error := none }) [],
      r.roll_number = "R1" ∧ r.face_registered = true ∧
      r.face_embedding_id = some "emb" :=
  (face_registered_iff_training_success
    { fullName := "A", rollNumber := "R1", email := none } "sec" "n1"
    (some { success := true, face_embedding_id := some "emb"
          , message := none, error := none }) []).1
    { success := true, face_embedding_id := some "emb"
    , message := none, error := none } rfl rfl

/-! TakeAttendance.tsx model: the detectedStudents list, its operations, and
the attendance rows built by submitAttendance. -/

/-- Attendance status values used by TakeAttendance.tsx. -/
inductive AttStatus where
  | present
  | absent
  | late
deriving DecidableEq

/-- The DetectedStudent interface of TakeAttendance.tsx. -/
structure DetectedStudent where
  id : String
  rollNumber : String
  fullName : String
  confidence : ℚ
  status : AttStatus
  isManual : Bool
deriving DecidableEq

/-- One recognized face of a face-recognition response (fields used by
performRecognition). -/
structure RecognizedFace where
  student_id : String
  roll_number : String
  student_name : String
  confidence : ℚ
deriving DecidableEq

/-- The ids held in the detectedStudents list. -/
def detectedIds (l : List DetectedStudent) : List String :=
  l.map (fun s => s.id)

/-- Embedding of one iteration of the for-loop in performRecognition that
merges a recognized face into the detectedStudents list: a face whose
student_id is already present is skipped, otherwise it is pushed with status
present. -/
def mergeOneFace (newStudents : List DetectedStudent) (face : RecognizedFace) :
    List DetectedStudent :=
  if (newStudents.find? (fun s => decide (s.id = face.student_id))).isSome then
    newStudents
  else
    newStudents ++
      [{ id := face.student_id
       , rollNumber := face.roll_number
       , fullName := face.student_name
       , confidence := face.confidence
       , status := .present
       , isManual := false }]

/-- Embedding of the setDetectedStudents updater of performRecognition:
fold the merge step over the recognized faces of the response. -/
def mergeRecognized (prev : List DetectedStudent)
    (recognized : List RecognizedFace) : List DetectedStudent :=
  recognized.foldl mergeOneFace prev

/-- Embedding of updateStudentStatus in TakeAttendance.tsx. -/
def updateStudentStatus (detected : List DetectedStudent) (studentId : String)
    (status : AttStatus) : List DetectedStudent :=
  detected.map (fun s => if s.id = studentId then { s with status := status } else s)

/-- Embedding of addManualStudent in TakeAttendance.tsx: an already-present
student id is a no-op, otherwise the roster student is appended with
confidence 1.0, status present and isManual true. -/
def addManualStudent (detected : List DetectedStudent) (student : StudentRow) :
    List DetectedStudent :=
  if (detected.find? (fun d => decide (d.id = student.id))).isSome then detected
  else
    detected ++
      [{ id := student.id
       , rollNumber := student.roll_number
       , fullName := student.full_name
       , confidence := 1
       , status := .present
       , isManual := true }]

/-- Embedding of removeStudent in TakeAttendance.tsx. -/
def removeStudent (detected : List DetectedStudent) (studentId : String) :
    List DetectedStudent :=
  detected.filter (fun s => decide (s.id ≠ studentId))

theorem detectedIds_append_single (l : List DetectedStudent)
    (d : DetectedStudent) : detectedIds (l ++ [d]) = detectedIds l ++ [d.id] := by
  simp [detectedIds]

theorem mergeOneFace_nodup {l : List DetectedStudent} (face : RecognizedFace)
    (h : (detectedIds l).Nodup) : (detectedIds (mergeOneFace l face)).Nodup := by
  unfold mergeOneFace
  cases hfind : l.find? (fun s => decide (s.id = face.student_id)) with
  | some s => simpa using h
  | none =>
      simp only [Option.isSome_none, Bool.false_eq_true, if_false]
      rw [detectedIds_append_single, List.nodup_append]
      refine ⟨h, List.nodup_singleton _, ?_⟩
      intro a ha hb
      rw [List.mem_singleton] at hb
      subst hb
      obtain ⟨s, hs, hsid⟩ := List.mem_map.mp ha
      have := List.find?_eq_none.mp hfind s hs
      simp only [decide_eq_true_eq] at this
      exact this hsid

theorem mergeRecognized_nodup (recognized : List RecognizedFace)
    {prev : List DetectedStudent} (h : (detectedIds prev).Nodup) :
    (detectedIds (mergeRecognized prev recognized)).Nodup := by
  induction recognized generalizing prev with
  | nil => exact h
  | cons face rest ih => exact ih (mergeOneFace_nodup face h)

/-- C9: the detectedStudents list never holds two entries with one student
id. Merging recognition results skips ids already present (a face whose id is
listed leaves the list unchanged) and preserves uniqueness; adding a student
manually is a no-op when the id is present and preserves uniqueness
otherwise; status updates and removals preserve uniqueness. -/
theorem detected_students_ids_unique
    (prev detected : List DetectedStudent) (recognized : List RecognizedFace)
    (face : RecognizedFace) (student : StudentRow) (studentId : String)
    (status : AttStatus)
    (hPrev : (detectedIds prev).Nodup) (hDet : (detectedIds detected).Nodup) :
    ((detectedIds (mergeRecognized prev recognized)).Nodup) ∧
    (face.student_id ∈ detectedIds prev → mergeOneFace prev face = prev) ∧
    ((detectedIds (addManualStudent detected student)).Nodup) ∧
    (student.id ∈ detectedIds detected →
      addManualStudent detected student = detected) ∧
    ((detectedIds (updateStudentStatus detected studentId status)).Nodup) ∧
    ((detectedIds (removeStudent detected studentId)).Nodup) := by
  refine ⟨mergeRecognized_nodup recognized hPrev, ?_, ?_, ?_, ?_, ?_⟩
  · intro hmem
    unfold mergeOneFace
    rw [if_pos]
    rw [List.find?_isSome]
    obtain ⟨s, hs, hsid⟩ := List.mem_map.mp hmem
    exact ⟨s, hs, by simpa using hsid⟩
  · unfold addManualStudent
    cases hfind : detected.find? (fun d => decide (d.id = student.id)) with
    | some d => simpa using hDet
    | none =>
        simp only [Option.isSome_none, Bool.false_eq_true, if_false]
        rw [detectedIds_append_single, List.nodup_append]
        refine ⟨hDet, List.nodup_singleton _, ?_⟩
        intro a ha hb
        rw [List.mem_singleton] at hb
        subst hb
        obtain ⟨d, hd, hdid⟩ := List.mem_map.mp ha
        have := List.find?_eq_none.mp hfind d hd
        simp only [decide_eq_true_eq] at this
        exact this hdid
  · intro hmem
    unfold addManualStudent
    rw [if_pos]
    rw [List.find?_isSome]
    obtain ⟨d, hd, hdid⟩ := List.mem_map.mp hmem
    exact ⟨d, hd, by simpa using hdid⟩
  · have hids : detectedIds (updateStudentStatus detected studentId status) =
        detectedIds detected := by
      unfold detectedIds updateStudentStatus
      rw [List.map_map]
      apply List.map_congr_left
      intro s _
      by_cases h : s.id = studentId <;> simp [h]
    rwa [hids]
  · unfold detectedIds removeStudent
    exact hDet.sublist (List.Sublist.map _ (List.filter_sublist _))

/-- Witness for the C9 theorem: merging a response that repeats an already
listed student id leaves a one-entry list unchanged and duplicate-free. -/
theorem detected_students_ids_unique_witness :
    mergeOneFace [{ id := "s1", rollNumber := "R1", fullName := "A"
                  , confidence := 9/10, status := .present, isManual := false }]
        { student_id := "s1", roll_number := "R1", student_name := "A"
        , confidence := 8/10 } =
      [{ id := "s1", rollNumber := "R1", fullName := "A"
       , confidence := 9/10, status := .present, isManual := false }] :=
  (detected_students_ids_unique
    [{ id := "s1", rollNumber := "R1", fullName := "A"
     , confidence := 9/10, status := .present, isManual := false }]
    [] []
    { student_id := "s1", roll_number := "R1", student_name := "A"
    , confidence := 8/10 }
    { id := "x", roll_number := "RX", full_name := "X", email := none
    , section_id := "sec", face_registered := false, face_embedding_id := none }
    "s1" .present (by simp [detectedIds]) (by simp [detectedIds])).2.1
    (by simp [detectedIds])

/-- One row inserted into public.attendance by submitAttendance (columns it
sets). -/
structure AttendanceRecord where
  class_id : String
  student_id : String
  status : AttStatus
  marked_by : Option String
  face_confidence : Option ℚ
  is_manual_override : Bool
deriving DecidableEq

/-- Embedding of the attendanceRecords mapping of submitAttendance: a
detected student keeps their chosen status; a manual entry gets a null
confidence, a recognized one its recognition confidence; the manual flag is
sent as an explicit boolean. -/
def detectedAttendanceRecord (classId : String) (userId : Option String)
    (student : DetectedStudent) : AttendanceRecord :=
  { class_id := classId
  , student_id := student.id
  , status := student.status
  , marked_by := userId
  , face_confidence := if student.isManual then none else some student.confidence
  , is_manual_override := student.isManual }

/-- Embedding of the absentStudents mapping of submitAttendance: a roster
student not in the detected list is marked absent, not a manual override,
with no confidence. -/
def absentAttendanceRecord (classId : String) (userId : Option String)
    (student : StudentRow) : AttendanceRecord :=
  { class_id := classId
  , student_id := student.id
  , status := .absent
  , marked_by := userId
  , face_confidence := none
  , is_manual_override := false }

/-- Embedding of the record list submitAttendance inserts into
public.attendance: records for the detected students followed by absent
records for every roster student not found in the detected list. -/
def submitAttendanceRecords (classId : String) (userId : Option String)
    (detectedStudents : List DetectedStudent) (allStudents : List StudentRow) :
    List AttendanceRecord :=
  let attendanceRecords := detectedStudents.map (detectedAttendanceRecord classId userId)
  let absentStudents :=
    (allStudents.filter (fun s =>
        !(detectedStudents.find? (fun d => decide (d.id = s.id))).isSome)).map
      (absentAttendanceRecord classId userId)
  attendanceRecords ++ absentStudents

theorem filter_key_eq_singleton {α : Type} (key : α → String) (l : List α)
    (a : α) (hnodup : (l.map key).Nodup) (ha : a ∈ l) :
    l.filter (fun x => decide (key x = key a)) = [a] := by
  induction l with
  | nil => cases ha
  | cons b l ih =>
      rw [List.map_cons, List.nodup_cons] at hnodup
      rcases List.mem_cons.mp ha with rfl | hmem
      · rw [List.filter_cons_of_pos (by simp)]
        congr 1
        rw [List.filter_eq_nil_iff]
        intro x hx
        simp only [decide_eq_true_eq]
        intro hkey
        exact hnodup.1 (hkey ▸ List.mem_map_of_mem key hx)
      · rw [List.filter_cons_of_neg, ih hnodup.2 hmem]
        simp only [decide_eq_true_eq]
        intro hkey
        exact hnodup.1 (hkey ▸ List.mem_map_of_mem key hmem)

theorem filter_key_eq_nil {α : Type} (key : α → String) (l : List α)
    (v : String) (h : ∀ x ∈ l, key x ≠ v) :
    l.filter (fun x => decide (key x = v)) = [] := by
  rw [List.filter_eq_nil_iff]
  intro x hx
  simpa using h x hx

/-- C8: submitAttendance inserts exactly one attendance record per roster
student. A detected student's single record carries their chosen status, the
recognition confidence (or null confidence plus the manual-override flag for
a manually added student); a roster student absent from the detected list
gets the single record (absent, no override, null confidence). -/
theorem attendance_one_record_per_student (classId : String)
    (userId : Option String) (detectedStudents : List DetectedStudent)
    (allStudents : List StudentRow)
    (hRoster : (allStudents.map (fun s => s.id)).Nodup)
    (hDet : (detectedIds detectedStudents).Nodup) :
    (∀ d ∈ detectedStudents,
      (submitAttendanceRecords classId userId detectedStudents allStudents).filter
          (fun r => decide (r.student_id = d.id)) =
        [detectedAttendanceRecord classId userId d]) ∧
    (∀ st ∈ allStudents, st.id ∉ detectedIds detectedStudents →
      (submitAttendanceRecords classId userId detectedStudents allStudents).filter
          (fun r => decide (r.student_id = st.id)) =
        [absentAttendanceRecord classId userId st]) ∧
    (∀ st ∈ allStudents, ∃ r,
      (submitAttendanceRecords classId userId detectedStudents allStudents).filter
          (fun r => decide (r.student_id = st.id)) = [r]) := by
  have hrecords : ∀ x : String,
      (submitAttendanceRecords classId userId detectedStudents allStudents).filter
          (fun r => decide (r.student_id = x)) =
        (detectedStudents.filter (fun d => decide (d.id = x))).map
            (detectedAttendanceRecord classId userId) ++
        ((allStudents.filter (fun s =>
            !(detectedStudents.find? (fun d => decide (d.id = s.id))).isSome)).filter
              (fun s => decide (s.id = x))).map
            (absentAttendanceRecord classId userId) := by
    intro x
    unfold submitAttendanceRecords
    rw [List.filter_append, List.filter_map, List.filter_map]
    rfl
  have hdetected : ∀ d ∈ detectedStudents,
      (submitAttendanceRecords classId userId detectedStudents allStudents).filter
          (fun r => decide (r.student_id = d.id)) =
        [detectedAttendanceRecord classId userId d] := by
    intro d hd
    rw [hrecords d.id]
    have h1 : detectedStudents.filter (fun x => decide (x.id = d.id)) = [d] :=
      filter_key_eq_singleton (fun s => s.id) detectedStudents d
        (by simpa [detectedIds] using hDet) hd
    have h2 : (allStudents.filter (fun s =>
        !(detectedStudents.find? (fun x => decide (x.id = s.id))).isSome)).filter
          (fun s => decide (s.id = d.id)) = [] := by
      apply filter_key_eq_nil
      intro st hst heq
      have hp := List.of_mem_filter hst
      rw [Bool.not_eq_true'] at hp
      have hpn : detectedStudents.find? (fun x => decide (x.id = st.id)) = none :=
        Option.not_isSome_iff_eq_none.mp (by simp [hp])
      have hnd := List.find?_eq_none.mp hpn d hd
      simp only [decide_eq_true_eq] at hnd
      exact hnd heq.symm
    rw [h1, h2]
    simp
  have habsent : ∀ st ∈ allStudents, st.id ∉ detectedIds detectedStudents →
      (submitAttendanceRecords classId userId detectedStudents allStudents).filter
          (fun r => decide (r.student_id = st.id)) =
        [absentAttendanceRecord classId userId st] := by
    intro st hst hnot
    rw [hrecords st.id]
    have h1 : detectedStudents.filter (fun x => decide (x.id = st.id)) = [] := by
      apply filter_key_eq_nil
      intro d hd heq
      exact hnot (heq ▸ List.mem_map_of_mem (fun s => s.id) hd)
    have hfnone : detectedStudents.find? (fun x => decide (x.id = st.id)) = none := by
      rw [List.find?_eq_none]
      intro d hd
      simp only [decide_eq_true_eq]
      intro heq
      exact hnot (heq ▸ List.mem_map_of_mem (fun s => s.id) hd)
    have hmemf : st ∈ allStudents.filter (fun s =>
        !(detectedStudents.find? (fun x => decide (x.id = s.id))).isSome) := by
      rw [List.mem_filter]
      exact ⟨hst, by simp [hfnone]⟩
    have hnodupf : ((allStudents.filter (fun s =>
        !(detectedStudents.find? (fun x => decide (x.id = s.id))).isSome)).map
          (fun s => s.id)).Nodup :=
      hRoster.sublist (List.Sublist.map _ (List.filter_sublist _))
    have h2 := filter_key_eq_singleton (fun s => s.id) _ st hnodupf hmemf
    rw [h1, h2]
    simp
  refine ⟨hdetected, habsent, ?_⟩
  intro st hst
  by_cases hmem : st.id ∈ detectedIds detectedStudents
  · obtain ⟨d, hd, hdid⟩ := List.mem_map.mp hmem
    refine ⟨detectedAttendanceRecord classId userId d, ?_⟩
    rw [← hdid]
    exact hdetected d hd
  · exact ⟨absentAttendanceRecord classId userId st, habsent st hst hmem⟩

/-- Witness for the C8 theorem: a roster of two with one detected student
yields one record for the undetected student, marked absent with no
confidence and no override. -/
theorem attendance_one_record_per_student_witness :
    (submitAttendanceRecords "c1" (some "t1")
        [{ id := "s1", rollNumber := "R1", fullName := "A"
         , confidence := 9/10, status := .present, isManual := false }]
        [{ id := "s1", roll_number := "R1", full_name := "A", email := none
         , section_id := "sec", face_registered := true, face_embedding_id := none }
        ,{ id := "s2", roll_number := "R2", full_name := "B", email := none
         , section_id := "sec", face_registered := false, face_embedding_id := none }]).filter
        (fun r => decide (r.student_id = "s2")) =
      [absentAttendanceRecord "c1" (some "t1")
        { id := "s2", roll_number := "R2", full_name := "B", email := none
        , section_id := "sec", face_registered := false, face_embedding_id := none }] :=
  (attendance_one_record_per_student "c1" (some "t1")
    [{ id := "s1", rollNumber := "R1", fullName := "A"
     , confidence := 9/10, status := .present, isManual := false }]
    [{ id := "s1", roll_number := "R1", full_name := "A", email := none
     , section_id := "sec", face_registered := true, face_embedding_id := none }
    ,{ id := "s2", roll_number := "R2", full_name := "B", email := none
     , section_id := "sec", face_registered := false, face_embedding_id := none }]
    (by simp) (by simp [detectedIds])).2.1
    { id := "s2", roll_number := "R2", full_name := "B", email := none
    , section_id := "sec", face_registered := false, face_embedding_id := none }
    (by simp) (by simp [detectedIds])

/-! Recognition-loop model: performRecognition, startRecognition,
stopRecognition and the recognitionInFlightRef guard of TakeAttendance.tsx. -/

/-- Observable effects of one recognition attempt: the frame capture and the
HTTP recognition request. -/
inductive RecAction where
  | captureFrame
  | sendRequest
deriving DecidableEq

/-- Loop state relevant to the guard: recognitionInFlightRef.current, and
the number of recognition requests sent whose responses have not arrived. -/
structure RecState where
  inFlight : Bool
  outstanding : Nat
deriving DecidableEq

/-- The polling period installed by startRecognition: setInterval(..., 2000). -/
def recognitionIntervalMs : Nat := 2000

/-- Embedding of one invocation of performRecognition (the immediate call or
one interval tick). A call that finds recognitionInFlightRef set returns at
once: no frame capture, no request — the tick is dropped, not queued. With no
matching selected class it also returns before capturing. When the captured
frame is null the guard is released in the finally block with no request
sent. Otherwise the request goes out and the guard stays held until the
response is awaited. -/
def performRecognitionStep (classSelected frameOk : Bool) (s : RecState) :
    RecState × List RecAction :=
  if s.inFlight then (s, [])
  else if ¬ classSelected then (s, [])
  else if ¬ frameOk then (s, [.captureFrame])
  else ({ inFlight := true, outstanding := s.outstanding + 1 },
    [.captureFrame, .sendRequest])

/-- Embedding of the tail of performRecognition once the awaited request
resolves: the finally block releases the guard and the response is no longer
outstanding. -/
def finishRecognition (s : RecState) : RecState :=
  { inFlight := false, outstanding := s.outstanding - 1 }

/-- Embedding of stopRecognition (and stopCamera) on the guard: the interval
is cleared and recognitionInFlightRef.current is forced to false; an
outstanding request is not cancelled by either handler. -/
def stopRecognitionStep (s : RecState) : RecState :=
  { s with inFlight := false }

/-- States the guard can reach through any interleaving of attempts,
responses and stop clicks, starting idle. -/
inductive RecReachable : RecState → Prop
  | init : RecReachable { inFlight := false, outstanding := 0 }
  | attempt (classSelected frameOk : Bool) {s : RecState} :
      RecReachable s →
      RecReachable (performRecognitionStep classSelected frameOk s).1
  | respond {s : RecState} : RecReachable s → 1 ≤ s.outstanding →
      RecReachable (finishRecognition s)
  | stop {s : RecState} : RecReachable s → RecReachable (stopRecognitionStep s)

/-- States reachable within one recognition session, with no stop/restart:
only attempts and responses. -/
inductive RecSessionReachable : RecState → Prop
  | init : RecSessionReachable { inFlight := false, outstanding := 0 }
  | attempt (classSelected frameOk : Bool) {s : RecState} :
      RecSessionReachable s →
      RecSessionReachable (performRecognitionStep classSelected frameOk s).1
  | respond {s : RecState} : RecSessionReachable s → 1 ≤ s.outstanding →
      RecSessionReachable (finishRecognition s)

/-- What startRecognition installs. -/
structure StartRecognitionResult where
  isRecognizing : Bool
  intervalMs : Option Nat
  immediateAttempt : Bool
deriving DecidableEq

/-- Embedding of startRecognition in TakeAttendance.tsx: with the video
element not yet delivering frames it only toasts; otherwise it sets
isRecognizing, installs a 2000 ms interval of performRecognition calls and
performs one immediate recognition. -/
def startRecognitionSetup (videoReady : Bool) : StartRecognitionResult :=
  if videoReady then
    { isRecognizing := true
    , intervalMs := some recognitionIntervalMs
    , immediateAttempt := true }
  else
    { isRecognizing := false, intervalMs := none, immediateAttempt := false }

theorem recSessionReachable_invariant {s : RecState}
    (h : RecSessionReachable s) :
    s.outstanding = if s.inFlight then 1 else 0 := by
  induction h with
  | init => rfl
  | attempt cs fo h ih =>
      rename_i t
      by_cases hin : t.inFlight = true
      · simpa [performRecognitionStep, hin] using ih
      · have hin' : t.inFlight = false := by simpa using hin
        rw [hin'] at ih
        simp only [Bool.false_eq_true, if_false] at ih
        by_cases hcs : cs = true
        · by_cases hfo : fo = true
          · simp [performRecognitionStep, hin', hcs, hfo, ih]
          · have hfo' : fo = false := by simpa using hfo
            simp [performRecognitionStep, hin', hcs, hfo', ih]
        · have hcs' : cs = false := by simpa using hcs
          simp [performRecognitionStep, hin', hcs', ih]
  | respond h hle ih =>
      rename_i t
      by_cases hin : t.inFlight = true
      · rw [hin] at ih
        simp only [if_true] at ih
        simp [finishRecognition, ih]
      · have hin' : t.inFlight = false := by simpa using hin
        rw [hin'] at ih
        simp only [Bool.false_eq_true, if_false] at ih
        omega

/-- C3 counterexample: stopping recognition forces the guard off without
cancelling the outstanding request, so restarting before the response
arrives reaches a state with two requests in flight — refuting that at most
one recognition request is ever in flight. -/
theorem recognition_two_in_flight_counterexample :
    RecReachable { inFlight := true, outstanding := 2 } ∧ ¬ (2 ≤ 1) := by
  constructor
  · have h0 : RecReachable { inFlight := false, outstanding := 0 } :=
      RecReachable.init
    have h1 := RecReachable.attempt true true h0
    rw [show (performRecognitionStep true true
        { inFlight := false, outstanding := 0 }).1 =
      { inFlight := true, outstanding := 1 } from rfl] at h1
    have h2 := RecReachable.stop h1
    rw [show stopRecognitionStep { inFlight := true, outstanding := 1 } =
      { inFlight := false, outstanding := 1 } from rfl] at h2
    have h3 := RecReachable.attempt true true h2
    rw [show (performRecognitionStep true true
        { inFlight := false, outstanding := 1 }).1 =
      { inFlight := true, outstanding := 2 } from rfl] at h3
    exact h3
  · omega

/-- C3 amended: starting recognition performs an immediate attempt and
installs a 2000 ms interval; an attempt that finds a request in flight
captures no frame and sends no request (dropped, never queued); and within
one uninterrupted recognition session at most one request is outstanding at
any time. (Stopping recognition resets the guard without cancelling the
outstanding request, so a stop/restart can exceed this bound — see the
counterexample.) -/
theorem recognition_loop_guarded (classSelected frameOk videoReady : Bool)
    (s : RecState) :
    (videoReady = true → startRecognitionSetup videoReady =
      { isRecognizing := true
      , intervalMs := some recognitionIntervalMs
      , immediateAttempt := true }) ∧
    (s.inFlight = true →
      performRecognitionStep classSelected frameOk s = (s, [])) ∧
    (RecSessionReachable s → s.outstanding ≤ 1) := by
  refine ⟨?_, ?_, ?_⟩
  · intro hv
    simp [startRecognitionSetup, hv]
  · intro hin
    simp [performRecognitionStep, hin]
  · intro hreach
    rw [recSessionReachable_invariant hreach]
    split <;> omega

/-- Witness for the C3 amended theorem: an attempt arriving while a request
is in flight leaves the busy state untouched and emits nothing. -/
theorem recognition_loop_guarded_witness :
    performRecognitionStep true true { inFlight := true, outstanding := 1 } =
      ({ inFlight := true, outstanding := 1 }, []) :=
  (recognition_loop_guarded true true true
    { inFlight := true, outstanding := 1 }).2.1 rfl

/-! useFaceApi.ts model: hook state and the API calls each operation
issues. -/

/-- Response of GET /api/model/status/{section_id} (ModelStatusResponse). -/
structure ModelStatusResponse where
  section_id : String
  is_trained : Bool
  last_trained_at : Option String
  students_count : Nat
  trained_students_count : Nat
deriving DecidableEq

/-- The state held by the useFaceApi hook. -/
structure UseFaceApiState where
  isApiAvailable : Bool
  checkingApi : Bool
  isTraining : Bool
  isRecognizing : Bool
  isTrainingModel : Bool
  modelStatus : Option ModelStatusResponse
deriving DecidableEq

/-- The backend endpoints the faceRecognitionApi service can reach. -/
inductive ApiCall where
  | getStatusCall (sectionId : String)
  | trainSingleCall
  | trainBulkCall
  | trainModelCall (sectionId : String)
  | recognizeCall
  | healthCall
deriving DecidableEq

/-- Whether a call trains (single, bulk, or the section model). -/
def ApiCall.triggersTraining : ApiCall → Bool
  | .trainSingleCall => true
  | .trainBulkCall => true
  | .trainModelCall _ => true
  | _ => false

/-- Embedding of fetchModelStatus in useFaceApi.ts: issue getModelStatus for
the section, store the response in modelStatus, and store null when the call
throws; nothing else is touched. -/
def fetchModelStatus (sectionId : String)
    (response : Except String ModelStatusResponse) (s : UseFaceApiState) :
    UseFaceApiState × List ApiCall :=
  (match response with
   | .ok status => { s with modelStatus := some status }
   | .error _ => { s with modelStatus := none },
   [ApiCall.getStatusCall sectionId])

/-- C7: fetching model status is a pure read. The operation issues exactly
the one status request (in particular nothing that trains or rebuilds), sets
modelStatus to the response (null on error), and leaves every other field of
the hook state unchanged. -/
theorem fetch_model_status_pure_read (sectionId : String)
    (response : Except String ModelStatusResponse) (s : UseFaceApiState) :
    ((fetchModelStatus sectionId response s).2 =
      [ApiCall.getStatusCall sectionId]) ∧
    (∀ c ∈ (fetchModelStatus sectionId response s).2,
      c.triggersTraining = false) ∧
    ((fetchModelStatus sectionId response s).1.modelStatus =
      response.toOption) ∧
    ((fetchModelStatus sectionId response s).1.isApiAvailable =
      s.isApiAvailable) ∧
    ((fetchModelStatus sectionId response s).1.checkingApi = s.checkingApi) ∧
    ((fetchModelStatus sectionId response s).1.isTraining = s.isTraining) ∧
    ((fetchModelStatus sectionId response s).1.isRecognizing =
      s.isRecognizing) ∧
    ((fetchModelStatus sectionId response s).1.isTrainingModel =
      s.isTrainingModel) := by
  cases response <;>
    simp [fetchModelStatus, Except.toOption, ApiCall.triggersTraining]

/-! Recognition threshold policy. -/

/-- Modelled from the spec: the two-tier confidence threshold configuration
of the recognition backend, whose implementation is absent from the
repository (only its HTTP contract and threshold table are documented);
defaults high 0.85 and low 0.70. -/
structure ThresholdConfig where
  high : ℚ
  low : ℚ
deriving DecidableEq

/-- Modelled from the spec: the default thresholds, high 0.85 (auto-accept)
and low 0.70 (suggest). -/
def defaultThresholds : ThresholdConfig := { high := 85/100, low := 70/100 }

/-- Decision for one detected face after the k=1 index search. -/
inductive MatchDecision where
  | recognizedAuto (studentId : String) (similarity : ℚ)
  | recognizedSuggested (studentId : String) (similarity : ℚ)
  | unrecognized
deriving DecidableEq

/-- Modelled from the spec: the Recognition Orchestrator's per-face decision
(the backend is absent from the repository). The best match of the section
index is none on an empty index; similarity at or above high is a confident
recognition, between low and high a suggested recognition carrying the raw
similarity, below low unrecognized. -/
def classifyMatch (cfg : ThresholdConfig) (best : Option (String × ℚ)) :
    MatchDecision :=
  match best with
  | none => .unrecognized
  | some (sid, sim) =>
      if cfg.high ≤ sim then .recognizedAuto sid sim
      else if cfg.low ≤ sim then .recognizedSuggested sid sim
      else .unrecognized

/-- C6: the two-tier threshold policy at the defaults high 0.85 / low 0.70:
similarity at or above 0.85 gives a confident recognized entry; similarity
in [0.70, 0.85) gives a suggested recognized entry carrying the raw
similarity; similarity below 0.70 — or an empty index — lands the face in
the unrecognized list. The three documented literal cases 0.90, 0.75 and
0.50 fall in their tiers. -/
theorem two_tier_threshold_policy (sid : String) (sim : ℚ) :
    (85/100 ≤ sim →
      classifyMatch defaultThresholds (some (sid, sim)) =
        .recognizedAuto sid sim) ∧
    (70/100 ≤ sim → sim < 85/100 →
      classifyMatch defaultThresholds (some (sid, sim)) =
        .recognizedSuggested sid sim) ∧
    (sim < 70/100 →
      classifyMatch defaultThresholds (some (sid, sim)) = .unrecognized) ∧
    (classifyMatch defaultThresholds none = .unrecognized) ∧
    (classifyMatch defaultThresholds (some (sid, 90/100)) =
      .recognizedAuto sid (90/100)) ∧
    (classifyMatch defaultThresholds (some (sid, 75/100)) =
      .recognizedSuggested sid (75/100)) ∧
    (classifyMatch defaultThresholds (some (sid, 50/100)) = .unrecognized) := by
  refine ⟨?_, ?_, ?_, rfl, ?_, ?_, ?_⟩
  · intro h
    simp [classifyMatch, defaultThresholds, h]
  · intro hlo hhi
    rw [classifyMatch]
    rw [if_neg (by simp [defaultThresholds]; linarith), if_pos (by simpa [defaultThresholds] using hlo)]
  · intro h
    rw [classifyMatch]
    rw [if_neg (by simp [defaultThresholds]; linarith),
      if_neg (by simp [defaultThresholds]; linarith)]
  · rw [classifyMatch, if_pos (by norm_num [defaultThresholds])]
  · rw [classifyMatch]
    rw [if_neg (by norm_num [defaultThresholds]),
      if_pos (by norm_num [defaultThresholds])]
  · rw [classifyMatch]
    rw [if_neg (by norm_num [defaultThresholds]),
      if_neg (by norm_num [defaultThresholds])]

/-- Witness for the C6 theorem: similarity 0.80 is a suggested match. -/
theorem two_tier_threshold_policy_witness :
    classifyMatch defaultThresholds (some ("s1", 80/100)) =
      .recognizedSuggested "s1" (80/100) :=
  (two_tier_threshold_policy "s1" (80/100)).2.1 (by norm_num) (by norm_num)

/-! Model-status progress display. -/

/-- Embedding of the Progress value of FaceTraining.tsx and BulkUpload.tsx:
(trained_students_count / Math.max(students_count, 1)) * 100. -/
def modelProgressValue (trained students : Nat) : ℚ :=
  ((trained : ℚ) / max (students : ℚ) 1) * 100

/-- C10: the progress computation divides by max(students_count, 1), whose
value is at least 1 — never zero — and on an empty roster (students_count 0)
the displayed value is trained_students_count * 100. -/
theorem model_progress_total (trained students : Nat) :
    (0 < max ((students : ℚ)) 1) ∧
    (modelProgressValue trained 0 = (trained : ℚ) * 100) ∧
    (1 ≤ students →
      modelProgressValue trained students =
        ((trained : ℚ) / (students : ℚ)) * 100) := by
  refine ⟨?_, ?_, ?_⟩
  · exact lt_max_of_lt_right one_pos
  · simp [modelProgressValue]
  · intro h
    unfold modelProgressValue
    rw [max_eq_left (by exact_mod_cast h)]

/-- Witness for the C10 theorem: a full roster of 4 with 2 trained shows
50%. -/
theorem model_progress_total_witness : modelProgressValue 2 4 = 50 := by
  rw [(model_progress_total 2 4).2.2 (by omega)]
  norm_num

/-! BulkUpload.tsx model: the parsed batch, the filter selecting what is
submitted, and the bulk-training endpoint (modelled from its documented
contract). -/

/-- Per-item status of BulkUpload.tsx (ParsedStudent.status). -/
inductive BulkStatus where
  | pending
  | uploading
  | success
  | failed
  | noImage
deriving DecidableEq

/-- The ParsedStudent interface of BulkUpload.tsx; the parse step sets
status pending when an uploaded image matches the serial number and
no_image otherwise. -/
structure ParsedStudent where
  serialNo : Nat
  rollNumber : String
  studentName : String
  branch : String
  semester : String
  gender : String
  status : BulkStatus
  hasImage : Bool
deriving DecidableEq

/-- The UploadedImage interface of BulkUpload.tsx. -/
structure UploadedImage where
  serialNo : Nat
  fileName : String
  dataUrl : String
deriving DecidableEq

/-- One student entry of the bulk-training request body. -/
structure BulkStudentEntry where
  serial_no : Nat
  roll_number : String
  student_name : String
  branch : String
  semester : String
  gender : String
deriving DecidableEq

/-- The request body of POST /api/face-training/bulk (images keyed by
serial number). -/
structure BulkTrainingRequest where
  section_id : String
  students : List BulkStudentEntry
  images : List (Nat × String)
deriving DecidableEq

/-- One per-item entry of the bulk-training response. -/
structure BulkItemResult where
  serial_no : Nat
  roll_number : String
  status : BulkStatus
  error : Option String
  message : Option String
deriving DecidableEq

/-- The response body of POST /api/face-training/bulk. -/
structure BulkTrainingResponse where
  success : Bool
  total : Nat
  trained : Nat
  failed : Nat
  results : List BulkItemResult
deriving DecidableEq

/-- Modelled from the spec: the bulk-training endpoint
POST /api/face-training/bulk, whose implementation is absent from the
repository (docs/BACKEND_API_SPECIFICATION.md documents the contract). Each
submitted item runs the single-enrollment pipeline independently; itemOutcome
gives each serial number's own pipeline outcome. The response counts the
submitted items: total their number, trained the successes, failed the
failures, one result per item (reference ids are elided from the model). -/
def bulkTrainBackend (itemOutcome : Nat → Bool) (req : BulkTrainingRequest) :
    BulkTrainingResponse :=
  { success := true
  , total := req.students.length
  , trained := (req.students.filter (fun s => itemOutcome s.serial_no)).length
  , failed := (req.students.filter (fun s => !(itemOutcome s.serial_no))).length
  , results := req.students.map (fun s =>
      if itemOutcome s.serial_no then
        { serial_no := s.serial_no, roll_number := s.roll_number
        , status := .success, error := none, message := none }
      else
        { serial_no := s.serial_no, roll_number := s.roll_number
        , status := .failed, error := some "face_not_detected"
        , message := some "Face not clearly visible in image" }) }

/-- Embedding of the studentsToTrain selection of startBulkTraining in
BulkUpload.tsx: only parsed rows that are still pending and have a matching
image are submitted. -/
def studentsToTrain (parsedStudents : List ParsedStudent) : List ParsedStudent :=
  parsedStudents.filter (fun s => decide (s.status = .pending) && s.hasImage)

/-- Embedding of startBulkTraining in BulkUpload.tsx up to the bulk API
response: without a selected section, or when no pending student has an
image, no request is made; otherwise the filtered items, with the images
matched to them by serial number, form the request sent to the bulk
endpoint. -/
def startBulkTraining (selectedSectionId : String)
    (parsedStudents : List ParsedStudent) (uploadedImages : List UploadedImage)
    (itemOutcome : Nat → Bool) : Option BulkTrainingResponse :=
  if selectedSectionId = "" then none
  else if (studentsToTrain parsedStudents).isEmpty then none
  else
    some (bulkTrainBackend itemOutcome
      { section_id := selectedSectionId
      , students := (studentsToTrain parsedStudents).map (fun s =>
          { serial_no := s.serialNo, roll_number := s.rollNumber
          , student_name := s.studentName, branch := s.branch
          , semester := s.semester, gender := s.gender })
      , images := (studentsToTrain parsedStudents).filterMap (fun s =>
          (uploadedImages.find? (fun img => decide (img.serialNo = s.serialNo))).map
            (fun img => (s.serialNo, img.dataUrl))) })

/-- The three-row batch of the C2 scenario after CSV parse and ZIP match:
item 2 has no matching image (hasImage false, status no_image as the parse
step sets it), items 1 and 3 are pending with images. -/
def demoBatch : List ParsedStudent :=
  [ { serialNo := 1, rollNumber := "R1", studentName := "A", branch := ""
    , semester := "", gender := "", status := .pending, hasImage := true }
  , { serialNo := 2, rollNumber := "R2", studentName := "B", branch := ""
    , semester := "", gender := "", status := .noImage, hasImage := false }
  , { serialNo := 3, rollNumber := "R3", studentName := "C", branch := ""
    , semester := "", gender := "", status := .pending, hasImage := true } ]

/-- The uploaded images of the C2 scenario: serial numbers 1 and 3 only. -/
def demoImages : List UploadedImage :=
  [ { serialNo := 1, fileName := "1.jpg", dataUrl := "img1" }
  , { serialNo := 3, fileName := "3.jpg", dataUrl := "img3" } ]

/-- C2 counterexample: on the 3-item batch whose item 2 has no image, with
every submitted item succeeding, the response reports total 2, trained 2,
failed 0, and its results cover serial numbers 1 and 3 only — not total 3
with a failed outcome for item 2 as the claim states: item 2 is filtered out
before the request is sent. -/
theorem bulk_partial_failure_counterexample :
    (startBulkTraining "sec" demoBatch demoImages (fun _ => true)).map
        (fun r => (r.total, r.trained, r.failed,
          r.results.map (fun res => res.serial_no))) =
      some (2, 2, 0, [1, 3]) := by
  decide

theorem length_filter_add_length_filter_not {α : Type} (p : α → Bool)
    (l : List α) :
    (l.filter p).length + (l.filter (fun a => !(p a))).length = l.length := by
  induction l with
  | nil => rfl
  | cons a l ih =>
      cases ha : p a <;>
        simp [List.filter_cons, ha, ← ih] <;> omega

/-- C2 amended: only parsed items that are pending and have a matching image
are submitted to the bulk endpoint; the response covers exactly the
submitted items (total is their number, trained and failed partition it, one
result per item), and items are isolated: each submitted item's reported
status is success exactly when its own pipeline outcome succeeds, and a
failing item carries a face-not-detected-class error, independent of the
other items. An item without an image never reaches the request. -/
theorem bulk_submitted_items_isolated (sectionId : String)
    (parsedStudents : List ParsedStudent) (uploadedImages : List UploadedImage)
    (itemOutcome : Nat → Bool)
    (hSec : sectionId ≠ "") (hSome : studentsToTrain parsedStudents ≠ []) :
    ∃ r, startBulkTraining sectionId parsedStudents uploadedImages
        itemOutcome = some r ∧
      r.total = (studentsToTrain parsedStudents).length ∧
      r.trained + r.failed = r.total ∧
      r.results.length = r.total ∧
      (∀ s ∈ studentsToTrain parsedStudents,
        s.status = .pending ∧ s.hasImage = true) ∧
      (∀ s ∈ parsedStudents, s.hasImage = false →
        s ∉ studentsToTrain parsedStudents) ∧
      (∀ s ∈ studentsToTrain parsedStudents, ∃ res ∈ r.results,
        res.serial_no = s.serialNo ∧
        (res.status = .success ↔ itemOutcome s.serialNo = true) ∧
        (itemOutcome s.serialNo = false →
          res.error = some "face_not_detected")) := by
  have hne : (studentsToTrain parsedStudents).isEmpty = false := by
    rw [List.isEmpty_eq_false]
    exact hSome
  refine ⟨bulkTrainBackend itemOutcome
    { section_id := sectionId
    , students := (studentsToTrain parsedStudents).map (fun s =>
        { serial_no := s.serialNo, roll_number := s.rollNumber
        , student_name := s.studentName, branch := s.branch
        , semester := s.semester, gender := s.gender })
    , images := (studentsToTrain parsedStudents).filterMap (fun s =>
        (uploadedImages.find? (fun img => decide (img.serialNo = s.serialNo))).map
          (fun img => (s.serialNo, img.dataUrl))) },
    ?_, ?_, ?_, ?_, ?_, ?_, ?_⟩
  · unfold startBulkTraining
    rw [if_neg hSec, hne]
    rfl
  · simp [bulkTrainBackend]
  · simp only [bulkTrainBackend, List.length_map]
    have h := length_filter_add_length_filter_not
      (fun s : BulkStudentEntry => itemOutcome s.serial_no)
      ((studentsToTrain parsedStudents).map (fun s =>
        { serial_no := s.serialNo, roll_number := s.rollNumber
        , student_name := s.studentName, branch := s.branch
        , semester := s.semester, gender := s.gender }))
    rw [List.length_map] at h
    exact h
  · simp [bulkTrainBackend]
  · intro s hs
    have h := List.of_mem_filter hs
    rw [Bool.and_eq_true, decide_eq_true_eq] at h
    exact h
  · intro s _ hNoImg hmem
    have h := List.of_mem_filter hmem
    rw [Bool.and_eq_true] at h
    rw [hNoImg] at h
    exact Bool.false_ne_true h.2
  · intro s hs
    simp only [bulkTrainBackend]
    by_cases ho : itemOutcome s.serialNo = true
    · refine ⟨{ serial_no := s.serialNo, roll_number := s.rollNumber
              , status := .success, error := none, message := none },
        ?_, rfl, by simp [ho], by simp [ho]⟩
      refine List.mem_map.mpr ⟨_, List.mem_map_of_mem _ hs, ?_⟩
      simp [ho]
    · have ho' : itemOutcome s.serialNo = false := by simpa using ho
      refine ⟨{ serial_no := s.serialNo, roll_number := s.rollNumber
              , status := .failed, error := some "face_not_detected"
              , message := some "Face not clearly visible in image" },
        ?_, rfl, by simp [ho'], by simp⟩
      refine List.mem_map.mpr ⟨_, List.mem_map_of_mem _ hs, ?_⟩
      simp [ho']

/-- Witness for the C2 amended theorem: the demo batch with item 3 failing
its pipeline produces a response. -/
theorem bulk_submitted_items_isolated_witness :
    (startBulkTraining "sec" demoBatch demoImages
        (fun n => decide (n = 1))).isSome = true := by
  obtain ⟨r, hr, -⟩ := bulk_submitted_items_isolated "sec" demoBatch
    demoImages (fun n => decide (n = 1)) (by decide) (by decide)
  rw [hr]
  rfl

end SmartAttendance
